import Mathlib

/-!
Shallow embedding of `tellduslive.py`, a client for the Telldus Live
home-automation API.  Decoded JSON response bodies are modelled by `Json`;
the outcome of the one signed HTTP GET performed by `Client.request` is an
explicit `TransportResult` input; Python exceptions that can escape a
function are modelled with `Except PyErr`; the mutable device/sensor cache
is threaded as an explicit `ClientState`.
-/

namespace Telldus

/-- A decoded JSON value, as produced by `response.json()`.  `null` also
stands for Python `None` where a dict `get` misses. -/
inductive Json where
  | null
  | bool (b : Bool)
  | num (n : Int)
  | str (s : String)
  | arr (items : List Json)
  | obj (fields : List (String × Json))

mutual

/-- Decidable equality of decoded JSON values (Python `==`). -/
def Json.decEq : (a b : Json) → Decidable (a = b)
  | .null, .null => .isTrue rfl
  | .bool a, .bool b =>
    if h : a = b then .isTrue (by rw [h]) else .isFalse (by intro hh; injection hh; contradiction)
  | .num a, .num b =>
    if h : a = b then .isTrue (by rw [h]) else .isFalse (by intro hh; injection hh; contradiction)
  | .str a, .str b =>
    if h : a = b then .isTrue (by rw [h]) else .isFalse (by intro hh; injection hh; contradiction)
  | .arr xs, .arr ys =>
    match Json.decEqList xs ys with
    | .isTrue h => .isTrue (by rw [h])
    | .isFalse h => .isFalse (by intro hh; injection hh; contradiction)
  | .obj fs, .obj gs =>
    match Json.decEqFields fs gs with
    | .isTrue h => .isTrue (by rw [h])
    | .isFalse h => .isFalse (by intro hh; injection hh; contradiction)
  | .null, .bool _ => .isFalse (fun h => Json.noConfusion h)
  | .null, .num _ => .isFalse (fun h => Json.noConfusion h)
  | .null, .str _ => .isFalse (fun h => Json.noConfusion h)
  | .null, .arr _ => .isFalse (fun h => Json.noConfusion h)
  | .null, .obj _ => .isFalse (fun h => Json.noConfusion h)
  | .bool _, .null => .isFalse (fun h => Json.noConfusion h)
  | .bool _, .num _ => .isFalse (fun h => Json.noConfusion h)
  | .bool _, .str _ => .isFalse (fun h => Json.noConfusion h)
  | .bool _, .arr _ => .isFalse (fun h => Json.noConfusion h)
  | .bool _, .obj _ => .isFalse (fun h => Json.noConfusion h)
  | .num _, .null => .isFalse (fun h => Json.noConfusion h)
  | .num _, .bool _ => .isFalse (fun h => Json.noConfusion h)
  | .num _, .str _ => .isFalse (fun h => Json.noConfusion h)
  | .num _, .arr _ => .isFalse (fun h => Json.noConfusion h)
  | .num _, .obj _ => .isFalse (fun h => Json.noConfusion h)
  | .str _, .null => .isFalse (fun h => Json.noConfusion h)
  | .str _, .bool _ => .isFalse (fun h => Json.noConfusion h)
  | .str _, .num _ => .isFalse (fun h => Json.noConfusion h)
  | .str _, .arr _ => .isFalse (fun h => Json.noConfusion h)
  | .str _, .obj _ => .isFalse (fun h => Json.noConfusion h)
  | .arr _, .null => .isFalse (fun h => Json.noConfusion h)
  | .arr _, .bool _ => .isFalse (fun h => Json.noConfusion h)
  | .arr _, .num _ => .isFalse (fun h => Json.noConfusion h)
  | .arr _, .str _ => .isFalse (fun h => Json.noConfusion h)
  | .arr _, .obj _ => .isFalse (fun h => Json.noConfusion h)
  | .obj _, .null => .isFalse (fun h => Json.noConfusion h)
  | .obj _, .bool _ => .isFalse (fun h => Json.noConfusion h)
  | .obj _, .num _ => .isFalse (fun h => Json.noConfusion h)
  | .obj _, .str _ => .isFalse (fun h => Json.noConfusion h)
  | .obj _, .arr _ => .isFalse (fun h => Json.noConfusion h)

/-- Decidable equality of JSON arrays. -/
def Json.decEqList : (xs ys : List Json) → Decidable (xs = ys)
  | [], [] => .isTrue rfl
  | [], _ :: _ => .isFalse (fun h => List.noConfusion h)
  | _ :: _, [] => .isFalse (fun h => List.noConfusion h)
  | x :: xs, y :: ys =>
    match Json.decEq x y with
    | .isTrue h1 =>
      match Json.decEqList xs ys with
      | .isTrue h2 => .isTrue (by rw [h1, h2])
      | .isFalse h2 => .isFalse (by intro hh; injection hh; contradiction)
    | .isFalse h1 => .isFalse (by intro hh; injection hh; contradiction)

/-- Decidable equality of JSON object field lists. -/
def Json.decEqFields : (xs ys : List (String × Json)) → Decidable (xs = ys)
  | [], [] => .isTrue rfl
  | [], _ :: _ => .isFalse (fun h => List.noConfusion h)
  | _ :: _, [] => .isFalse (fun h => List.noConfusion h)
  | (k, v) :: xs, (l, w) :: ys =>
    if hk : k = l then
      match Json.decEq v w with
      | .isTrue h1 =>
        match Json.decEqFields xs ys with
        | .isTrue h2 => .isTrue (by rw [hk, h1, h2])
        | .isFalse h2 => .isFalse (by intro hh; injection hh; contradiction)
      | .isFalse h1 =>
        .isFalse (by intro hh; injection hh with hp hrest; rw [Prod.mk.injEq] at hp; exact h1 hp.2)
    else
      .isFalse (by intro hh; injection hh with hp hrest; rw [Prod.mk.injEq] at hp; exact hk hp.1)

end

instance : DecidableEq Json := Json.decEq

/-- Python exceptions that can escape the embedded functions. -/
inductive PyErr where
  | keyError (key : Json)
  | typeError
  | valueError
  deriving DecidableEq

instance {ε α : Type} [DecidableEq ε] [DecidableEq α] : DecidableEq (Except ε α) := fun a b =>
  match a, b with
  | .ok x, .ok y =>
    if h : x = y then .isTrue (by rw [h]) else .isFalse (by intro hh; injection hh; contradiction)
  | .error x, .error y =>
    if h : x = y then .isTrue (by rw [h]) else .isFalse (by intro hh; injection hh; contradiction)
  | .ok _, .error _ => .isFalse (fun h => Except.noConfusion h)
  | .error _, .ok _ => .isFalse (fun h => Except.noConfusion h)

/-- First binding of a key in a decoded JSON object (Python dicts have
unique keys; association lists model them with first-binding-wins). -/
def lookupKey : List (String × Json) → String → Option Json
  | [], _ => none
  | (k, v) :: rest, key => if k = key then some v else lookupKey rest key

/-- Python `d[k]` on a decoded value: KeyError for a missing key,
TypeError when the value is not a dict. -/
def getItem (j : Json) (key : String) : Except PyErr Json :=
  match j with
  | .obj fields =>
    match lookupKey fields key with
    | some v => Except.ok v
    | none => Except.error (.keyError (.str key))
  | _ => Except.error .typeError

/-- Python `d[k] = v` on the field list of a dict: replace the binding in
place, or append a new one. -/
def setField : List (String × Json) → String → Json → List (String × Json)
  | [], key, v => [(key, v)]
  | (k, w) :: rest, key, v =>
    if k = key then (key, v) :: rest else (k, w) :: setField rest key v

/-- Python `j[k] = v`: TypeError unless `j` is a dict. -/
def setItem (j : Json) (key : String) (v : Json) : Except PyErr Json :=
  match j with
  | .obj fields => Except.ok (.obj (setField fields key v))
  | _ => Except.error .typeError

/-- Python truthiness of a decoded JSON value. -/
def Json.truthy : Json → Bool
  | .null => false
  | .bool b => b
  | .num n => n != 0
  | .str s => s != ""
  | .arr items => !items.isEmpty
  | .obj fields => !fields.isEmpty

-- Tellstick method codes (module-level constants of the source).

def TURNON : Int := 1
def TURNOFF : Int := 2
def BELL : Int := 4
def TOGGLE : Int := 8
def DIM : Int := 16
def LEARN : Int := 32
def UP : Int := 128
def DOWN : Int := 256
def STOP : Int := 512
def RGBW : Int := 1024
def THERMOSTAT : Int := 2048

/-- Bitmask of the methods supported by this client; the codes are
distinct powers of two, so their bitwise or equals their sum. -/
def SUPPORTED_METHODS : Int :=
  TURNON + TURNOFF + DIM + UP + DOWN + STOP

/-- Registry of human-readable names for every method code. -/
def STR_METHODS : List (Int × String) :=
  [(TURNON, "TURNON"), (TURNOFF, "TURNOFF"), (BELL, "BELL"),
   (TOGGLE, "TOGGLE"), (DIM, "DIM"), (LEARN, "LEARN"), (UP, "UP"),
   (DOWN, "DOWN"), (STOP, "STOP"), (RGBW, "RGBW"),
   (THERMOSTAT, "THERMOSTAT")]

/-- Registry of remote endpoint paths for the commands wired to verbs. -/
def API_METHODS : List (Int × String) :=
  [(TURNON, "device/turnOn"), (TURNOFF, "device/turnOff"),
   (DIM, "device/dim"), (UP, "device/up"), (DOWN, "device/down"),
   (STOP, "device/stop")]

/-- Outcome of the signed GET issued inside `Client.request`: either the
transport layer raises (connection error, timeout, or a non-2xx status
turned into an exception by `raise_for_status`), or a decoded JSON object
body is obtained.  Per the protocol every response body is a JSON object,
modelled as its field list. -/
inductive TransportResult where
  | fail (msg : String)
  | ok (body : List (String × Json))

/-- `Client.request`: a transport exception is caught by the
`except (OSError, IOError)` clause, logged, and turned into an implicit
`None` return.  If the decoded body has an `error` field, the code raises
`IOError(response['error'])` inside the same `try`, so that exception is
caught by the very same clause: the caller again receives `None`.
Otherwise the decoded body is returned. -/
def Client.request : TransportResult → Option (List (String × Json))
  | .fail _ => none
  | .ok body => if (lookupKey body "error").isSome then none else some body

/-- The argument of the `Failed request` log line emitted by the except
branch of `Client.request`, when that branch runs: the transport exception
message, or the payload of the `IOError` raised on a body carrying an
`error` field. -/
def Client.requestLoggedError : TransportResult → Option Json
  | .fail msg => some (.str msg)
  | .ok body => lookupKey body "error"

/-- A Python value as returned by `Client.execute`: the expression
`response and response.get('status') == 'success'` evaluates to `None`
(request returned `None`), to the empty — falsy — body itself, or to a
genuine boolean. -/
inductive PyVal where
  | none
  | bool (b : Bool)
  | obj (fields : List (String × Json))
  deriving DecidableEq

/-- Python truthiness of an `execute` result. -/
def PyVal.truthy : PyVal → Bool
  | .none => false
  | .bool b => b
  | .obj fields => !fields.isEmpty

/-- `Client.execute`: `response and response.get('status') == 'success'`. -/
def Client.execute (t : TransportResult) : PyVal :=
  match Client.request t with
  | Option.none => PyVal.none
  | some body =>
    if body.isEmpty then PyVal.obj body
    else PyVal.bool (decide (lookupKey body "status" = some (.str "success")))


/-- `Client.request_devices`: `res.get('device') if res else []`.  A failed
request (`None`) or a falsy empty body yields the empty list; otherwise
the value of the `device` field, with Python `None` — modelled as
`Json.null` — when the key is absent. -/
def Client.request_devices (t : TransportResult) : Json :=
  match Client.request t with
  | Option.none => .arr []
  | some body =>
    if body.isEmpty then .arr []
    else (lookupKey body "device").getD .null

/-- `Client.request_sensors`: `res.get('sensor') if res else []`, as for
`request_devices`. -/
def Client.request_sensors (t : TransportResult) : Json :=
  match Client.request t with
  | Option.none => .arr []
  | some body =>
    if body.isEmpty then .arr []
    else (lookupKey body "sensor").getD .null

/-- Insert into a Python dict keyed by JSON ids (association list):
replace the binding for an existing key in place, else append. -/
def dictInsert : List (Json × Json) → Json → Json → List (Json × Json)
  | [], key, v => [(key, v)]
  | (k, w) :: rest, key, v =>
    if k = key then (key, v) :: rest else (k, w) :: dictInsert rest key v

/-- Python `d[k]` on an id-keyed dict: KeyError when the key is absent. -/
def dictGet : List (Json × Json) → Json → Except PyErr Json
  | [], key => Except.error (.keyError key)
  | (k, v) :: rest, key => if k = key then Except.ok v else dictGet rest key

/-- The keys of an id-keyed dict, in iteration order. -/
def dictKeys (d : List (Json × Json)) : List Json :=
  d.map Prod.fst

/-- The `_devices` and `_sensors` caches owned by a `Client`, each a dict
mapping a server-assigned id to the raw record parsed from the last
successful list response (insertion-ordered, unique keys). -/
structure ClientState where
  devices : List (Json × Json)
  sensors : List (Json × Json)
  deriving DecidableEq

/-- The dict comprehension `{rec['id']: rec for rec in recs}`, inserting
in iteration order (a later duplicate id overwrites an earlier one). -/
def buildIdDictGo : List Json → List (Json × Json) → Except PyErr (List (Json × Json))
  | [], acc => Except.ok acc
  | item :: rest, acc =>
    match getItem item "id" with
    | Except.error e => Except.error e
    | Except.ok i => buildIdDictGo rest (dictInsert acc i item)

/-- Evaluate the id-keyed dict comprehension over the value returned by a
list request: iterating a non-list (for instance the Python `None` that
`res.get` yields when the key is absent) raises a TypeError, and an
element without an `id` key raises a KeyError. -/
def buildIdDict : Json → Except PyErr (List (Json × Json))
  | .arr items => buildIdDictGo items []
  | _ => Except.error .typeError

/-- `Client.update`: assign `_devices` from the devices list, then assign
`_sensors` from the sensors list.  The two assignments happen in source
order, so if the second comprehension raises, the first assignment has
already replaced the device cache; the returned pair is the client state
after the statements that did run, plus the escaped exception if any. -/
def Client.update (st : ClientState) (td ts : TransportResult) :
    ClientState × Option PyErr :=
  match buildIdDict (Client.request_devices td) with
  | Except.error e => (st, some e)
  | Except.ok ddict =>
    let st1 : ClientState := { st with devices := ddict }
    match buildIdDict (Client.request_sensors ts) with
    | Except.error e => (st1, some e)
    | Except.ok sdict => ({ st1 with sensors := sdict }, none)

/-- `Client.device`: `self._devices[device_id]` — KeyError when absent. -/
def Client.device (st : ClientState) (device_id : Json) : Except PyErr Json :=
  dictGet st.devices device_id

/-- `Client.sensor`: `self._sensors[sensor_id]` — KeyError when absent. -/
def Client.sensor (st : ClientState) (sensor_id : Json) : Except PyErr Json :=
  dictGet st.sensors sensor_id

/-- A `Device` view: a stateless handle holding only the id (the
`_device_id` attribute); every data read goes through the client cache. -/
structure Device where
  device_id : Json
  deriving DecidableEq

/-- `Client.devices`: one `Device` view per key of the device cache, in
iteration order. -/
def Client.devices (st : ClientState) : List Device :=
  st.devices.map (fun p => ⟨p.1⟩)

/-- `Device._device`: the raw cached record, via `Client.device`. -/
def Device.rawDevice (d : Device) (st : ClientState) : Except PyErr Json :=
  Client.device st d.device_id

/-- `Device.name`: `self._device['name']`. -/
def Device.name (d : Device) (st : ClientState) : Except PyErr Json :=
  match Device.rawDevice d st with
  | Except.error e => Except.error e
  | Except.ok r => getItem r "name"

/-- `Device.state`: `self._device['state']`. -/
def Device.state (d : Device) (st : ClientState) : Except PyErr Json :=
  match Device.rawDevice d st with
  | Except.error e => Except.error e
  | Except.ok r => getItem r "state"

/-- `Device.statevalue`: `self._device['statevalue']`. -/
def Device.statevalue (d : Device) (st : ClientState) : Except PyErr Json :=
  match Device.rawDevice d st with
  | Except.error e => Except.error e
  | Except.ok r => getItem r "statevalue"

/-- `Device.methods`: `self._device['methods']`. -/
def Device.methods (d : Device) (st : ClientState) : Except PyErr Json :=
  match Device.rawDevice d st with
  | Except.error e => Except.error e
  | Except.ok r => getItem r "methods"

/-- `Device.is_on`: `self.state == TURNON or self.state == DIM`. -/
def Device.is_on (d : Device) (st : ClientState) : Except PyErr Bool :=
  match Device.state d st with
  | Except.error e => Except.error e
  | Except.ok s => Except.ok (decide (s = .num TURNON) || decide (s = .num DIM))

/-- ASCII whitespace stripped by Python `int` from both ends of its
string argument. -/
def pyWhitespace : List Char :=
  [' ', '\t', '\n', '\r', '\x0b', '\x0c']

/-- Strip surrounding whitespace, as `int` does with a string argument. -/
def pyStrip (s : String) : List Char :=
  ((s.toList.dropWhile (· ∈ pyWhitespace)).reverse.dropWhile
    (· ∈ pyWhitespace)).reverse

/-- After the first digit, a Python integer literal body is digits with
single underscores allowed only between digits. -/
def digitsTail : List Char → Bool
  | [] => true
  | '_' :: c :: rest => c.isDigit && digitsTail rest
  | c :: rest => c.isDigit && digitsTail rest

/-- Numeric value of a digit-and-underscore character run. -/
def digitsVal : List Char → Int → Int
  | [], acc => acc
  | '_' :: rest, acc => digitsVal rest acc
  | c :: rest, acc => digitsVal rest (acc * 10 + (c.toNat - '0'.toNat))

/-- Python `int(s)` on a string (ASCII model): surrounding whitespace,
an optional sign, then digits with single underscores between digits;
any other shape raises ValueError, modelled here as `none`. -/
def pyIntOfString (s : String) : Option Int :=
  let stripped := pyStrip s
  let signAndRest : Int × List Char :=
    match stripped with
    | '+' :: rest => (1, rest)
    | '-' :: rest => (-1, rest)
    | rest => (1, rest)
  match signAndRest.2 with
  | [] => none
  | c :: _ =>
    if c.isDigit && digitsTail signAndRest.2 then
      some (signAndRest.1 * digitsVal signAndRest.2 0)
    else none

/-- Python `int(x)` on a decoded JSON value: parse a string (ValueError
when malformed), pass an integer through, coerce a boolean, and raise
TypeError on `None`, lists and objects. -/
def pyInt : Json → Except PyErr Int
  | .str s =>
    match pyIntOfString s with
    | some n => Except.ok n
    | none => Except.error .valueError
  | .num n => Except.ok n
  | .bool b => Except.ok (if b then 1 else 0)
  | _ => Except.error .typeError

/-- `Device.dim_level`: `int(self.statevalue)` with only ValueError
caught and resolved to `None`; every other exception (KeyError from the
cache reads, TypeError from `int(None)`) escapes. -/
def Device.dim_level (d : Device) (st : ClientState) : Except PyErr (Option Int) :=
  match Device.statevalue d st with
  | Except.error e => Except.error e
  | Except.ok sv =>
    match pyInt sv with
    | Except.ok n => Except.ok (some n)
    | Except.error .valueError => Except.ok Option.none
    | Except.error e => Except.error e

/-- `Device._execute`: look up the endpoint for the command in
`API_METHODS` (KeyError when absent), call `Client.execute`, and on a
truthy result set the cached record's `state` field to the command and
return `True`; on a falsy result fall through and return `None`.  The
`TransportResult` is the outcome of the HTTP call made by the inner
`Client.execute`. -/
def Device.runCommand (d : Device) (command : Int) (st : ClientState)
    (t : TransportResult) : Except PyErr (ClientState × PyVal) :=
  match API_METHODS.lookup command with
  | Option.none => Except.error (.keyError (.num command))
  | some _ =>
    if (Client.execute t).truthy then
      match Client.device st d.device_id with
      | Except.error e => Except.error e
      | Except.ok r =>
        match setItem r "state" (.num command) with
        | Except.error e => Except.error e
        | Except.ok r2 =>
          Except.ok
            ({ st with devices := dictInsert st.devices d.device_id r2 },
             PyVal.bool true)
    else Except.ok (st, PyVal.none)

/-- `Device.turn_on`: `self._execute(TURNON)`. -/
def Device.turn_on (d : Device) (st : ClientState) (t : TransportResult) :
    Except PyErr (ClientState × PyVal) :=
  Device.runCommand d TURNON st t

/-- `Device.turn_off`: `self._execute(TURNOFF)`. -/
def Device.turn_off (d : Device) (st : ClientState) (t : TransportResult) :
    Except PyErr (ClientState × PyVal) :=
  Device.runCommand d TURNOFF st t

/-- `Device.dim`: `self._execute(DIM, level=level)`.  The level is sent
to the server as a request parameter only; it does not touch the cache. -/
def Device.dim (d : Device) (_level : Json) (st : ClientState)
    (t : TransportResult) : Except PyErr (ClientState × PyVal) :=
  Device.runCommand d DIM st t

/-- A `Sensor` view: a stateless handle holding only the id. -/
structure Sensor where
  sensor_id : Json
  deriving DecidableEq

/-- `Client.sensors`: one `Sensor` view per key of the sensor cache. -/
def Client.sensors (st : ClientState) : List Sensor :=
  st.sensors.map (fun p => ⟨p.1⟩)

/-- `Sensor._sensor`: the raw cached record, via `Client.sensor`. -/
def Sensor.rawSensor (s : Sensor) (st : ClientState) : Except PyErr Json :=
  Client.sensor st s.sensor_id

/-- `Sensor.data`: `self._sensor['data']`. -/
def Sensor.data (s : Sensor) (st : ClientState) : Except PyErr Json :=
  match Sensor.rawSensor s st with
  | Except.error e => Except.error e
  | Except.ok r => getItem r "data"

/-- A `DataItem` view: a stateless handle holding only the identity
triple `(sensor_id, measurement name, scale)` (the `_item_id`
attribute). -/
structure DataItem where
  item_id : Json × Json × Json
  deriving DecidableEq

/-- `DataItem.sensor_id`: first component of the stored triple. -/
def DataItem.sensor_id (di : DataItem) : Json :=
  di.item_id.1

/-- `DataItem.name`: second component of the stored triple. -/
def DataItem.name (di : DataItem) : Json :=
  di.item_id.2.1

/-- `DataItem.scale`: third component of the stored triple. -/
def DataItem.scale (di : DataItem) : Json :=
  di.item_id.2.2

/-- `DataItem.sensor`: a fresh `Sensor` view for the stored sensor id. -/
def DataItem.sensor (di : DataItem) : Sensor :=
  ⟨DataItem.sensor_id di⟩

/-- The generator inside `DataItem.value`: scan the data sequence for the
first entry whose `name` matches, then whose `scale` matches (the `and`
short-circuits, so `scale` is only read on a name match; `value` only on
a full match); yield that entry's `value`. -/
def firstValue (items : List Json) (nm sc : Json) : Except PyErr (Option Json) :=
  match items with
  | [] => Except.ok Option.none
  | item :: rest =>
    match getItem item "name" with
    | Except.error e => Except.error e
    | Except.ok n =>
      if n = nm then
        match getItem item "scale" with
        | Except.error e => Except.error e
        | Except.ok s =>
          if s = sc then
            match getItem item "value" with
            | Except.error e => Except.error e
            | Except.ok v => Except.ok (some v)
          else firstValue rest nm sc
      else firstValue rest nm sc

/-- `DataItem.value`: `next((item['value'] for item in self.sensor.data
if item['name'] == self.name and item['scale'] == self.scale), None)`.
Iterating a non-list `data` raises TypeError. -/
def DataItem.value (di : DataItem) (st : ClientState) : Except PyErr (Option Json) :=
  match Sensor.data (DataItem.sensor di) st with
  | Except.error e => Except.error e
  | Except.ok dataJson =>
    match dataJson with
    | .arr items => firstValue items (DataItem.name di) (DataItem.scale di)
    | _ => Except.error .typeError

/-- Spec-side description of the `DataItem.value` lookup (§3 of the
spec): the `value` field of the first entry of the data sequence whose
`name` and `scale` both match the item's identity triple, or absent when
no entry matches both. -/
def firstMatchingValue (items : List Json) (nm sc : Json) : Option Json :=
  match items.find? (fun item =>
      decide (getItem item "name" = Except.ok nm) &&
      decide (getItem item "scale" = Except.ok sc)) with
  | some item => (getItem item "value").toOption
  | Option.none => Option.none


/-! Helper lemmas about the dict primitives. -/

theorem lookupKey_setField_self (fs : List (String × Json)) (key : String) (v : Json) :
    lookupKey (setField fs key v) key = some v := by
  induction fs with
  | nil => simp [setField, lookupKey]
  | cons p rest ih =>
    obtain ⟨k1, v1⟩ := p
    by_cases h : k1 = key
    · simp [setField, h, lookupKey]
    · simp [setField, h, lookupKey, ih]

theorem lookupKey_setField_ne (fs : List (String × Json)) (key other : String) (v : Json)
    (h : other ≠ key) :
    lookupKey (setField fs key v) other = lookupKey fs other := by
  induction fs with
  | nil => simp [setField, lookupKey, Ne.symm h]
  | cons p rest ih =>
    obtain ⟨k1, v1⟩ := p
    by_cases h1 : k1 = key
    · subst h1
      simp [setField, lookupKey, Ne.symm h]
    · simp [setField, h1, lookupKey, ih]

theorem getItem_setField_self (fs : List (String × Json)) (key : String) (v : Json) :
    getItem (.obj (setField fs key v)) key = Except.ok v := by
  simp [getItem, lookupKey_setField_self]

theorem getItem_setField_ne (fs : List (String × Json)) (key other : String) (v : Json)
    (h : other ≠ key) :
    getItem (.obj (setField fs key v)) other = getItem (.obj fs) other := by
  simp [getItem, lookupKey_setField_ne fs key other v h]

theorem dictGet_dictInsert_self (dct : List (Json × Json)) (key v : Json) :
    dictGet (dictInsert dct key v) key = Except.ok v := by
  induction dct with
  | nil => simp [dictInsert, dictGet]
  | cons p rest ih =>
    obtain ⟨k1, v1⟩ := p
    by_cases h : k1 = key
    · simp [dictInsert, h, dictGet]
    · simp [dictInsert, h, dictGet, ih]

theorem dictGet_dictInsert_ne (dct : List (Json × Json)) (key other v : Json)
    (h : other ≠ key) :
    dictGet (dictInsert dct key v) other = dictGet dct other := by
  induction dct with
  | nil => simp [dictInsert, dictGet, Ne.symm h]
  | cons p rest ih =>
    obtain ⟨k1, v1⟩ := p
    by_cases h1 : k1 = key
    · subst h1
      simp [dictInsert, dictGet, Ne.symm h]
    · simp [dictInsert, h1, dictGet, ih]

theorem dictInsert_fresh (dct : List (Json × Json)) (key v : Json)
    (h : key ∉ dictKeys dct) :
    dictInsert dct key v = dct ++ [(key, v)] := by
  induction dct with
  | nil => rfl
  | cons p rest ih =>
    simp [dictKeys] at h
    simp [dictInsert, Ne.symm h.1, ih (by simp [dictKeys, h.2])]

/-! Claim theorems. -/

/-- Claim C1, behavior of the code at the failing input: starting from a
cache holding the device record for id 1, an `update` whose devices/list
request fails at the transport while the sensors/list request succeeds
replaces the device cache with the empty dict — the previously cached
record for id 1 is dropped, contradicting the claim that a refresh with
exactly one failed list call leaves the prior cache contents untouched. -/
theorem c1_failed_refresh_wipes_devices :
    Client.update
      ⟨[(.num 1, .obj [("id", .num 1), ("name", .str "lamp")])], []⟩
      (.fail "timeout") (.ok [("sensor", .arr [])])
      = (⟨[], []⟩, Option.none) := by decide

/-- Claim C2, counterexample: a decoded body carrying an `error` field
makes `Client.request` return an absent result — the remote error is not
propagated to the caller, so the caller does not observe the error
payload's message. -/
theorem c2_counterexample :
    Client.request (.ok [("error", .str "oops")]) = Option.none := by decide

/-- Claim C2, amended: when the decoded body contains an `error` field,
the `IOError` raised on it is caught by the surrounding except clause of
`Client.request` itself, which logs the error payload and returns an
absent result; the caller observes only the absence, never the message. -/
theorem c2_request_error_reduced_to_absent (body : List (String × Json)) (payload : Json)
    (herr : lookupKey body "error" = some payload) :
    Client.request (.ok body) = Option.none ∧
    Client.requestLoggedError (.ok body) = some payload := by
  refine ⟨?_, ?_⟩
  · simp [Client.request, herr]
  · simp [Client.requestLoggedError, herr]

/-- Claim C2, witness: the amended statement at a concrete body. -/
theorem c2_request_error_reduced_to_absent_witness :
    Client.request (.ok [("id", .num 3), ("error", .str "no such device")]) = Option.none ∧
    Client.requestLoggedError (.ok [("id", .num 3), ("error", .str "no such device")])
      = some (.str "no such device") :=
  c2_request_error_reduced_to_absent
    [("id", .num 3), ("error", .str "no such device")] (.str "no such device") (by decide)

/-- Claim C3, counterexample: when the transport raises (so `request`
yields an absent result), `Client.execute` evaluates
`response and ...` to Python `None`, which is falsy but is not the
boolean `False` the claim promises. -/
theorem c3_counterexample :
    Client.execute (.fail "timeout") = PyVal.none ∧
    PyVal.none ≠ PyVal.bool false := by decide

/-- Claim C3, amended: `Client.execute` returns the boolean `True`
exactly when `request` returns a present body whose `status` field equals
the literal `success`; in every other case it returns a falsy value —
`None` when the request came back absent, the empty body itself when the
decoded body is empty, and the boolean `False` otherwise (missing
`status` field or any other status value) — and it never raises. -/
theorem c3_execute_success_criterion (t : TransportResult) :
    (Client.execute t = PyVal.bool true ↔
      (∃ body, Client.request t = some body ∧
        lookupKey body "status" = some (.str "success"))) ∧
    (Client.execute t ≠ PyVal.bool true → PyVal.truthy (Client.execute t) = false) := by
  cases t with
  | fail msg =>
    simp [Client.execute, Client.request, PyVal.truthy]
  | ok body =>
    by_cases herr : (lookupKey body "error").isSome
    · simp [Client.execute, Client.request, herr, PyVal.truthy]
    · by_cases hemp : body.isEmpty
      · have hnil : body = [] := by
          cases body with
          | nil => rfl
          | cons p rest => simp [List.isEmpty] at hemp
        subst hnil
        simp [Client.execute, Client.request, PyVal.truthy, lookupKey]
      · constructor
        · simp [Client.execute, Client.request, herr, hemp]
        · intro hne
          simp [Client.execute, Client.request, herr, hemp] at hne ⊢
          simp [PyVal.truthy, hne]

/-- Claim C3, witness: the amended statement at concrete inputs. -/
theorem c3_execute_success_criterion_witness :
    ((Client.execute (.fail "w") = PyVal.bool true ↔
      (∃ body, Client.request (.fail "w") = some body ∧
        lookupKey body "status" = some (.str "success"))) ∧
    (Client.execute (.fail "w") ≠ PyVal.bool true →
      PyVal.truthy (Client.execute (.fail "w")) = false)) :=
  c3_execute_success_criterion (.fail "w")

/-- Claim C4: for a device whose id is cached (record `fields`), if the
remote execute reports success then `turn_on` sets the cached record's
`state` field to the TURNON code, leaves its `statevalue` field unchanged
and returns `True`; if the remote execute reports failure the whole
client state — hence the cached record — is unchanged and the returned
value is falsy. -/
theorem c4_turn_on_state_update (st : ClientState) (d : Device)
    (fields : List (String × Json)) (t : TransportResult)
    (hr : Client.device st d.device_id = Except.ok (.obj fields)) :
    ((Client.execute t).truthy = true →
      Device.turn_on d st t =
        Except.ok
          ((⟨dictInsert st.devices d.device_id
              (.obj (setField fields "state" (.num TURNON))), st.sensors⟩ : ClientState),
           PyVal.bool true) ∧
      Client.device
        (⟨dictInsert st.devices d.device_id
            (.obj (setField fields "state" (.num TURNON))), st.sensors⟩ : ClientState)
        d.device_id = Except.ok (.obj (setField fields "state" (.num TURNON))) ∧
      getItem (.obj (setField fields "state" (.num TURNON))) "state"
        = Except.ok (.num TURNON) ∧
      getItem (.obj (setField fields "state" (.num TURNON))) "statevalue"
        = getItem (.obj fields) "statevalue") ∧
    ((Client.execute t).truthy = false →
      Device.turn_on d st t = Except.ok (st, PyVal.none) ∧
      PyVal.truthy PyVal.none = false) := by
  have hapi : API_METHODS.lookup TURNON = some "device/turnOn" := by decide
  constructor
  · intro hT
    refine ⟨?_, ?_, ?_, ?_⟩
    · unfold Device.turn_on Device.runCommand
      rw [hapi, hT, hr]
      simp [setItem]
    · exact dictGet_dictInsert_self st.devices d.device_id _
    · exact getItem_setField_self fields "state" (.num TURNON)
    · exact getItem_setField_ne fields "state" "statevalue" (.num TURNON) (by decide)
  · intro hF
    refine ⟨?_, rfl⟩
    unfold Device.turn_on Device.runCommand
    rw [hapi, hF]
    simp

/-- Claim C4, witness: a concrete cached device, one successful and one
failed remote call. -/
theorem c4_turn_on_state_update_witness :
    (Device.turn_on ⟨.num 1⟩
      ⟨[(.num 1, .obj [("id", .num 1), ("state", .num 2), ("statevalue", .str "0")])], []⟩
      (.ok [("status", .str "success")]) =
        Except.ok
          (⟨[(.num 1, .obj [("id", .num 1), ("state", .num 1), ("statevalue", .str "0")])], []⟩,
           PyVal.bool true)) ∧
    (Device.turn_on ⟨.num 1⟩
      ⟨[(.num 1, .obj [("id", .num 1), ("state", .num 2), ("statevalue", .str "0")])], []⟩
      (.fail "timeout") =
        Except.ok
          (⟨[(.num 1, .obj [("id", .num 1), ("state", .num 2), ("statevalue", .str "0")])], []⟩,
           PyVal.none)) := by
  have hok := (c4_turn_on_state_update
    ⟨[(.num 1, .obj [("id", .num 1), ("state", .num 2), ("statevalue", .str "0")])], []⟩
    ⟨.num 1⟩ [("id", .num 1), ("state", .num 2), ("statevalue", .str "0")]
    (.ok [("status", .str "success")]) (by decide)).1 (by decide)
  have hfail := (c4_turn_on_state_update
    ⟨[(.num 1, .obj [("id", .num 1), ("state", .num 2), ("statevalue", .str "0")])], []⟩
    ⟨.num 1⟩ [("id", .num 1), ("state", .num 2), ("statevalue", .str "0")]
    (.fail "timeout") (by decide)).2 (by decide)
  exact ⟨hok.1.trans (by decide), hfail.1⟩

/-- Claim C5: a successful `dim(level)` mutates only the cached record's
`state` field, setting it to the DIM code: every other field of the
record — in particular `statevalue` — reads exactly as before the
command, every other device's record is untouched, and the sensor cache
is untouched. -/
theorem c5_dim_updates_only_state (st : ClientState) (d : Device)
    (fields : List (String × Json)) (level : Json) (t : TransportResult)
    (hr : Client.device st d.device_id = Except.ok (.obj fields))
    (hT : (Client.execute t).truthy = true) :
    Device.dim d level st t =
      Except.ok
        ((⟨dictInsert st.devices d.device_id
            (.obj (setField fields "state" (.num DIM))), st.sensors⟩ : ClientState),
         PyVal.bool true) ∧
    Client.device
      (⟨dictInsert st.devices d.device_id
          (.obj (setField fields "state" (.num DIM))), st.sensors⟩ : ClientState)
      d.device_id = Except.ok (.obj (setField fields "state" (.num DIM))) ∧
    getItem (.obj (setField fields "state" (.num DIM))) "state" = Except.ok (.num DIM) ∧
    (∀ key : String, key ≠ "state" →
      getItem (.obj (setField fields "state" (.num DIM))) key = getItem (.obj fields) key) ∧
    getItem (.obj (setField fields "state" (.num DIM))) "statevalue"
      = getItem (.obj fields) "statevalue" ∧
    (∀ other : Json, other ≠ d.device_id →
      Client.device
        (⟨dictInsert st.devices d.device_id
            (.obj (setField fields "state" (.num DIM))), st.sensors⟩ : ClientState) other
        = Client.device st other) ∧
    (⟨dictInsert st.devices d.device_id
        (.obj (setField fields "state" (.num DIM))), st.sensors⟩ : ClientState).sensors
      = st.sensors := by
  have hapi : API_METHODS.lookup DIM = some "device/dim" := by decide
  refine ⟨?_, ?_, ?_, ?_, ?_, ?_, rfl⟩
  · unfold Device.dim Device.runCommand
    rw [hapi, hT, hr]
    simp [setItem]
  · exact dictGet_dictInsert_self st.devices d.device_id _
  · exact getItem_setField_self fields "state" (.num DIM)
  · intro key hkey
    exact getItem_setField_ne fields "state" key (.num DIM) hkey
  · exact getItem_setField_ne fields "state" "statevalue" (.num DIM) (by decide)
  · intro other hother
    exact dictGet_dictInsert_ne st.devices d.device_id other _ hother

/-- Claim C5, witness: a concrete successful dim checks that
`statevalue` still reads its pre-command value. -/
theorem c5_dim_updates_only_state_witness :
    Device.dim ⟨.num 1⟩ (.num 50)
      ⟨[(.num 1, .obj [("id", .num 1), ("state", .num 2), ("statevalue", .str "75")])], []⟩
      (.ok [("status", .str "success")]) =
      Except.ok
        (⟨[(.num 1, .obj [("id", .num 1), ("state", .num 16), ("statevalue", .str "75")])], []⟩,
         PyVal.bool true) ∧
    getItem (.obj [("id", .num 1), ("state", .num 16), ("statevalue", .str "75")]) "statevalue"
      = Except.ok (.str "75") := by
  have h := c5_dim_updates_only_state
    ⟨[(.num 1, .obj [("id", .num 1), ("state", .num 2), ("statevalue", .str "75")])], []⟩
    ⟨.num 1⟩ [("id", .num 1), ("state", .num 2), ("statevalue", .str "75")]
    (.num 50) (.ok [("status", .str "success")]) (by decide) (by decide)
  exact ⟨h.1.trans (by decide), by decide⟩

/-- Claim C6: with a cached record whose `state` holds a method code from
the `STR_METHODS` registry, `Device.is_on` returns true exactly when the
code is TURNON or DIM, and returns false for every other registry code. -/
theorem c6_is_on_iff (st : ClientState) (d : Device) (code : Int) (mname : String)
    (hreg : (code, mname) ∈ STR_METHODS)
    (hstate : Device.state d st = Except.ok (.num code)) :
    (Device.is_on d st = Except.ok true ↔ code = TURNON ∨ code = DIM) ∧
    (code ≠ TURNON ∧ code ≠ DIM → Device.is_on d st = Except.ok false) := by
  have hval : Device.is_on d st =
      Except.ok (decide ((.num code : Json) = .num TURNON) ||
        decide ((.num code : Json) = .num DIM)) := by
    unfold Device.is_on
    rw [hstate]
  constructor
  · rw [hval]
    constructor
    · intro h
      have hb := Except.ok.inj h
      rcases Bool.or_eq_true_iff.mp hb with h1 | h1
      · exact Or.inl (Json.num.inj (of_decide_eq_true h1))
      · exact Or.inr (Json.num.inj (of_decide_eq_true h1))
    · intro h
      rcases h with h | h
      · simp [h]
      · simp [h]
  · intro ⟨h1, h2⟩
    rw [hval]
    simp [h1, h2]

/-- Claim C6, witness: the statement at every code of the registry, with
a cache prepared for each. -/
theorem c6_is_on_iff_witness :
    (Device.is_on ⟨.num 1⟩
        ⟨[(.num 1, .obj [("id", .num 1), ("state", .num 2)])], []⟩ = Except.ok true
      ↔ ((2 : Int) = TURNON ∨ (2 : Int) = DIM)) ∧
    ((2 : Int) ≠ TURNON ∧ (2 : Int) ≠ DIM →
      Device.is_on ⟨.num 1⟩
        ⟨[(.num 1, .obj [("id", .num 1), ("state", .num 2)])], []⟩ = Except.ok false) :=
  c6_is_on_iff ⟨[(.num 1, .obj [("id", .num 1), ("state", .num 2)])], []⟩
    ⟨.num 1⟩ 2 "TURNOFF" (by decide) (by decide)

/-- Claim C7, counterexample: with a cached `statevalue` of JSON null —
Python `None` — `dim_level` evaluates `int(None)`, which raises a
TypeError that the `except ValueError` clause does not catch: the read
raises instead of resolving to an absent value. -/
theorem c7_counterexample :
    Device.dim_level ⟨.num 1⟩
      ⟨[(.num 1, .obj [("id", .num 1), ("statevalue", .null)])], []⟩
      = Except.error .typeError := by decide

/-- Claim C7, amended: `dim_level` parses a string `statevalue` and
returns the integer when the string is a valid Python integer literal,
and an absent value — without raising — when the string is not; but a
null `statevalue` raises a TypeError, because only ValueError is caught. -/
theorem c7_dim_level_parse (st : ClientState) (d : Device) (sv : Json)
    (hsv : Device.statevalue d st = Except.ok sv) :
    (∀ s n, sv = .str s → pyIntOfString s = some n →
      Device.dim_level d st = Except.ok (some n)) ∧
    (∀ s, sv = .str s → pyIntOfString s = Option.none →
      Device.dim_level d st = Except.ok Option.none) ∧
    (sv = .null → Device.dim_level d st = Except.error .typeError) := by
  refine ⟨?_, ?_, ?_⟩
  · intro s n hs hn
    subst hs
    unfold Device.dim_level
    rw [hsv]
    simp [pyInt, hn]
  · intro s hs hn
    subst hs
    unfold Device.dim_level
    rw [hsv]
    simp [pyInt, hn]
  · intro hs
    subst hs
    unfold Device.dim_level
    rw [hsv]
    simp [pyInt]

/-- Claim C7, witness: `statevalue = "42"` parses to 42 and
`statevalue = "unknown"` resolves to absent. -/
theorem c7_dim_level_parse_witness :
    Device.dim_level ⟨.num 1⟩
      ⟨[(.num 1, .obj [("id", .num 1), ("statevalue", .str "42")])], []⟩
      = Except.ok (some 42) ∧
    Device.dim_level ⟨.num 2⟩
      ⟨[(.num 2, .obj [("id", .num 2), ("statevalue", .str "unknown")])], []⟩
      = Except.ok Option.none := by
  have h1 := (c7_dim_level_parse
    ⟨[(.num 1, .obj [("id", .num 1), ("statevalue", .str "42")])], []⟩
    ⟨.num 1⟩ (.str "42") (by decide)).1 "42" 42 rfl (by decide)
  have h2 := (c7_dim_level_parse
    ⟨[(.num 2, .obj [("id", .num 2), ("statevalue", .str "unknown")])], []⟩
    ⟨.num 2⟩ (.str "unknown") (by decide)).2.1 "unknown" rfl (by decide)
  exact ⟨h1, h2⟩

/-- On a data sequence whose entries all carry `name`, `scale` and
`value` keys, the scanning generator of `DataItem.value` computes the
spec-side first-match lookup and raises nothing. -/
theorem firstValue_eq_firstMatchingValue (nm sc : Json) (items : List Json)
    (hw : items.all (fun item =>
        (getItem item "name").toOption.isSome &&
        ((getItem item "scale").toOption.isSome &&
         (getItem item "value").toOption.isSome)) = true) :
    firstValue items nm sc = Except.ok (firstMatchingValue items nm sc) := by
  induction items with
  | nil => simp [firstValue, firstMatchingValue]
  | cons item rest ih =>
    rw [List.all_cons, Bool.and_eq_true] at hw
    obtain ⟨hhead, htail⟩ := hw
    cases hn : getItem item "name" with
    | error e => rw [hn] at hhead; simp [Except.toOption] at hhead
    | ok n =>
      cases hs : getItem item "scale" with
      | error e => rw [hn, hs] at hhead; simp [Except.toOption] at hhead
      | ok s =>
        cases hv : getItem item "value" with
        | error e => rw [hn, hs, hv] at hhead; simp [Except.toOption] at hhead
        | ok v =>
          by_cases hnm : n = nm
          · by_cases hsc : s = sc
            · subst hnm; subst hsc
              simp [firstValue, hn, hs, hv, firstMatchingValue, List.find?,
                Except.toOption]
            · subst hnm
              simp [firstValue, hn, hs, hsc, firstMatchingValue, List.find?,
                ih htail]
          · simp [firstValue, hn, hnm, firstMatchingValue, List.find?, ih htail]

/-- Claim C8: for a DataItem whose sensor id is cached with a raw record
`r` whose `data` field is a sequence of well-formed entries,
`DataItem.value` resolves — without error — to the `value` field of the
first entry matching the item's measurement name and scale, and to an
absent value when no entry matches both. -/
theorem c8_dataitem_value_lookup (st : ClientState) (di : DataItem) (r : Json)
    (items : List Json)
    (hs : Client.sensor st (DataItem.sensor_id di) = Except.ok r)
    (hd : getItem r "data" = Except.ok (.arr items))
    (hw : items.all (fun item =>
        (getItem item "name").toOption.isSome &&
        ((getItem item "scale").toOption.isSome &&
         (getItem item "value").toOption.isSome)) = true) :
    DataItem.value di st =
      Except.ok (firstMatchingValue items (DataItem.name di) (DataItem.scale di)) := by
  unfold DataItem.value Sensor.data Sensor.rawSensor DataItem.sensor
  rw [hs]
  simp only [hd]
  exact firstValue_eq_firstMatchingValue (DataItem.name di) (DataItem.scale di) items hw

/-- Claim C8, witness: the spec's example — the triple
`(5, "temp", "0")` resolves to `"21.5"` against
`data = [{name: "temp", scale: "0", value: "21.5"}]`, and the triple
`(5, "temp", "1")` resolves to absent. -/
theorem c8_dataitem_value_lookup_witness :
    DataItem.value ⟨(.num 5, .str "temp", .str "0")⟩
      ⟨[], [(.num 5, .obj [("id", .num 5),
        ("data", .arr [.obj [("name", .str "temp"), ("scale", .str "0"),
                             ("value", .str "21.5")]])])]⟩
      = Except.ok (some (.str "21.5")) ∧
    DataItem.value ⟨(.num 5, .str "temp", .str "1")⟩
      ⟨[], [(.num 5, .obj [("id", .num 5),
        ("data", .arr [.obj [("name", .str "temp"), ("scale", .str "0"),
                             ("value", .str "21.5")]])])]⟩
      = Except.ok Option.none := by
  have h1 := c8_dataitem_value_lookup
    ⟨[], [(.num 5, .obj [("id", .num 5),
      ("data", .arr [.obj [("name", .str "temp"), ("scale", .str "0"),
                           ("value", .str "21.5")]])])]⟩
    ⟨(.num 5, .str "temp", .str "0")⟩
    (.obj [("id", .num 5),
      ("data", .arr [.obj [("name", .str "temp"), ("scale", .str "0"),
                           ("value", .str "21.5")]])])
    [.obj [("name", .str "temp"), ("scale", .str "0"), ("value", .str "21.5")]]
    (by decide) (by decide) (by decide)
  have h2 := c8_dataitem_value_lookup
    ⟨[], [(.num 5, .obj [("id", .num 5),
      ("data", .arr [.obj [("name", .str "temp"), ("scale", .str "0"),
                           ("value", .str "21.5")]])])]⟩
    ⟨(.num 5, .str "temp", .str "1")⟩
    (.obj [("id", .num 5),
      ("data", .arr [.obj [("name", .str "temp"), ("scale", .str "0"),
                           ("value", .str "21.5")]])])
    [.obj [("name", .str "temp"), ("scale", .str "0"), ("value", .str "21.5")]]
    (by decide) (by decide) (by decide)
  exact ⟨h1.trans (by decide), h2.trans (by decide)⟩

/-- Evaluating the id-keyed dict comprehension over records with distinct
ids (given by `idOf`) appends one binding per record, in order. -/
theorem buildIdDictGo_eq (idOf : Json → Json) (ds : List Json) :
    ∀ acc : List (Json × Json),
      (∀ x ∈ ds, getItem x "id" = Except.ok (idOf x)) →
      (ds.map idOf).Nodup →
      (∀ x ∈ ds, idOf x ∉ dictKeys acc) →
      buildIdDictGo ds acc = Except.ok (acc ++ ds.map (fun x => (idOf x, x))) := by
  induction ds with
  | nil => intro acc _ _ _; simp [buildIdDictGo]
  | cons d rest ih =>
    intro acc hid hnd hfresh
    have hd := hid d (by simp)
    rw [List.map_cons, List.nodup_cons] at hnd
    unfold buildIdDictGo
    rw [hd]
    show buildIdDictGo rest (dictInsert acc (idOf d) d)
      = Except.ok (acc ++ List.map (fun x => (idOf x, x)) (d :: rest))
    rw [dictInsert_fresh acc (idOf d) d (hfresh d (by simp))]
    have hfresh2 : ∀ x ∈ rest, idOf x ∉ dictKeys (acc ++ [(idOf d, d)]) := by
      intro x hx
      have h1 : idOf x ∉ dictKeys acc := hfresh x (by simp [hx])
      have h2 : idOf x ≠ idOf d := by
        intro hcontra
        exact hnd.1 (hcontra ▸ List.mem_map_of_mem idOf hx)
      simp [dictKeys, List.map_append] at h1 ⊢
      exact ⟨h1, h2⟩
    rw [ih (acc ++ [(idOf d, d)]) (fun x hx => hid x (by simp [hx])) hnd.2 hfresh2]
    simp

/-- Looking up the id of a listed record in the comprehension result
returns that record, when ids are distinct. -/
theorem dictGet_map_mem (idOf : Json → Json) (ds : List Json) (d : Json)
    (hnd : (ds.map idOf).Nodup) (hmem : d ∈ ds) :
    dictGet (ds.map (fun x => (idOf x, x))) (idOf d) = Except.ok d := by
  induction ds with
  | nil => cases hmem
  | cons a rest ih =>
    rw [List.map_cons, List.nodup_cons] at hnd
    rcases List.mem_cons.mp hmem with h | h
    · subst h
      simp [dictGet]
    · have hne : idOf a ≠ idOf d := by
        intro hcontra
        exact hnd.1 (hcontra ▸ List.mem_map_of_mem idOf h)
      simp [dictGet, hne, ih hnd.2 h]

/-- Looking up an id that no listed record carries raises KeyError. -/
theorem dictGet_map_notmem (idOf : Json → Json) (ds : List Json) (i : Json)
    (h : ∀ x ∈ ds, idOf x ≠ i) :
    dictGet (ds.map (fun x => (idOf x, x))) i = Except.error (.keyError i) := by
  induction ds with
  | nil => simp [dictGet]
  | cons a rest ih =>
    simp [dictGet, h a (by simp), ih (fun x hx => h x (by simp [hx]))]

/-- Claim C9: after an `update` whose devices/list response parses to the
records `ds` (with pairwise-distinct ids `idOf`) and whose sensors/list
comprehension succeeds, the device cache holds exactly the parsed records
keyed by id: `client.device id` returns the record verbatim for every
listed id, raises KeyError — the not-found condition — for every other
id, and `client.devices` yields exactly one `Device` view per cached id,
in order, with no duplicates. -/
theorem c9_refresh_populates_cache (st : ClientState) (td ts : TransportResult)
    (ds : List Json) (idOf : Json → Json) (sdict : List (Json × Json))
    (hdev : Client.request_devices td = .arr ds)
    (hid : ∀ x ∈ ds, getItem x "id" = Except.ok (idOf x))
    (hnd : (ds.map idOf).Nodup)
    (hsens : buildIdDict (Client.request_sensors ts) = Except.ok sdict) :
    ∃ st2 : ClientState,
      Client.update st td ts = (st2, Option.none) ∧
      st2.devices = ds.map (fun x => (idOf x, x)) ∧
      (∀ x ∈ ds, Client.device st2 (idOf x) = Except.ok x) ∧
      (∀ i : Json, (∀ x ∈ ds, idOf x ≠ i) →
        Client.device st2 i = Except.error (.keyError i)) ∧
      Client.devices st2 = ds.map (fun x => Device.mk (idOf x)) ∧
      (Client.devices st2).Nodup := by
  have hbuild : buildIdDict (Client.request_devices td)
      = Except.ok (ds.map (fun x => (idOf x, x))) := by
    rw [hdev]
    unfold buildIdDict
    exact buildIdDictGo_eq idOf ds [] hid hnd (by simp [dictKeys])
  refine ⟨⟨ds.map (fun x => (idOf x, x)), sdict⟩, ?_, rfl, ?_, ?_, ?_, ?_⟩
  · unfold Client.update
    rw [hbuild, hsens]
  · intro x hx
    exact dictGet_map_mem idOf ds x hnd hx
  · intro i hi
    exact dictGet_map_notmem idOf ds i hi
  · unfold Client.devices
    rw [List.map_map]
    rfl
  · unfold Client.devices
    rw [List.map_map]
    have : ((fun p : Json × Json => Device.mk p.1) ∘ fun x => (idOf x, x))
        = fun x => Device.mk (idOf x) := rfl
    rw [this]
    have hinj : Function.Injective Device.mk := fun a b h => by injection h
    have : (fun x => Device.mk (idOf x)) = Device.mk ∘ idOf := rfl
    rw [this, ← List.map_map]
    exact hnd.map hinj

/-- Claim C9, witness: a concrete refresh with two devices; the record
for id 1 reads back verbatim, id 3 is not found, and the views are the
two distinct handles. -/
theorem c9_refresh_populates_cache_witness :
    ∃ st2 : ClientState,
      Client.update ⟨[(.num 9, .obj [("id", .num 9)])], []⟩
        (.ok [("device", .arr
          [.obj [("id", .num 1), ("name", .str "a"), ("state", .num 2)],
           .obj [("id", .num 2), ("name", .str "b")]])])
        (.fail "x")
        = (st2, Option.none) ∧
      st2.devices =
        [.obj [("id", .num 1), ("name", .str "a"), ("state", .num 2)],
         .obj [("id", .num 2), ("name", .str "b")]].map
          (fun x => ((getItem x "id").toOption.getD .null, x)) ∧
      (∀ x ∈ [Json.obj [("id", .num 1), ("name", .str "a"), ("state", .num 2)],
              Json.obj [("id", .num 2), ("name", .str "b")]],
        Client.device st2 ((getItem x "id").toOption.getD .null) = Except.ok x) ∧
      (∀ i : Json,
        (∀ x ∈ [Json.obj [("id", .num 1), ("name", .str "a"), ("state", .num 2)],
                Json.obj [("id", .num 2), ("name", .str "b")]],
          (getItem x "id").toOption.getD .null ≠ i) →
        Client.device st2 i = Except.error (.keyError i)) ∧
      Client.devices st2 =
        [Json.obj [("id", .num 1), ("name", .str "a"), ("state", .num 2)],
         Json.obj [("id", .num 2), ("name", .str "b")]].map
          (fun x => Device.mk ((getItem x "id").toOption.getD .null)) ∧
      (Client.devices st2).Nodup :=
  c9_refresh_populates_cache ⟨[(.num 9, .obj [("id", .num 9)])], []⟩
    (.ok [("device", .arr
      [.obj [("id", .num 1), ("name", .str "a"), ("state", .num 2)],
       .obj [("id", .num 2), ("name", .str "b")]])])
    (.fail "x")
    [.obj [("id", .num 1), ("name", .str "a"), ("state", .num 2)],
     .obj [("id", .num 2), ("name", .str "b")]]
    (fun x => (getItem x "id").toOption.getD .null) []
    (by decide) (by decide) (by decide) (by decide)

/-- Claim C10: the identity accessors read the identity stored in the
handle itself — `Device.device_id` and the `DataItem` triple projections
are total functions of the handle, independent of any cache state — so
even for a stale handle whose id has been dropped from the cache they
yield the stored identity and never raise a not-found condition, whereas
the cache-reading properties of the same stale handle do fail with a
KeyError. -/
theorem c10_identity_accessors_total (st : ClientState) (d : Device) (di : DataItem)
    (hstale : Client.device st d.device_id = Except.error (.keyError d.device_id)) :
    Device.device_id d = d.device_id ∧
    DataItem.sensor_id di = di.item_id.1 ∧
    DataItem.name di = di.item_id.2.1 ∧
    DataItem.scale di = di.item_id.2.2 ∧
    (∀ v : Json, Device.name d st ≠ Except.ok v) ∧
    (∀ v : Json, Device.state d st ≠ Except.ok v) := by
  refine ⟨rfl, rfl, rfl, rfl, ?_, ?_⟩
  · intro v
    unfold Device.name Device.rawDevice
    rw [hstale]
    exact fun h => Except.noConfusion h
  · intro v
    unfold Device.state Device.rawDevice
    rw [hstale]
    exact fun h => Except.noConfusion h

/-- Claim C10, witness: a stale handle over an empty cache. -/
theorem c10_identity_accessors_total_witness :
    Device.device_id ⟨.num 9⟩ = Json.num 9 ∧
    DataItem.sensor_id ⟨(.num 5, .str "temp", .str "0")⟩ = Json.num 5 ∧
    DataItem.name ⟨(.num 5, .str "temp", .str "0")⟩ = Json.str "temp" ∧
    DataItem.scale ⟨(.num 5, .str "temp", .str "0")⟩ = Json.str "0" ∧
    (∀ v : Json, Device.name ⟨.num 9⟩ ⟨[], []⟩ ≠ Except.ok v) ∧
    (∀ v : Json, Device.state ⟨.num 9⟩ ⟨[], []⟩ ≠ Except.ok v) :=
  c10_identity_accessors_total ⟨[], []⟩ ⟨.num 9⟩ ⟨(.num 5, .str "temp", .str "0")⟩
    (by decide)

end Telldus
